import Mathlib

/-!
Verification of `repack_s3` (files `repack.py` and `__main__.py`).

The program copies Parquet objects from a source S3 bucket/prefix to a
destination bucket/prefix, rewriting each object through a streaming
decode/re-encode pass.  We shallowly embed the pure key arithmetic
(`_ensure_no_leading_slash`, `_normalize_prefix`, `_rel_key`), the local
repack loop of `rewrite_repack_streaming`, the existence gate
`_should_skip_existing`, the per-task body `_worker`, the orchestrator
`repack_prefix` and the exit-code logic of `__main__.main`.

All S3 network I/O (boto3 calls) is abstracted into an environment
`S3Env` of oracles; Python strings are embedded as `List Char` so that
slicing and prefix tests are plain list operations.  The concurrent
counter updates of `repack_prefix` happen under a single lock
(`ok_lock`), so the aggregate counts equal those of the sequential fold
embedded here.

One point is embedded with particular care: in `_worker` the call

  `rewrite_repack_streaming(s3fs=s3fs, src_bucket=..., ...)`

passes the keyword argument `s3fs`, while the definition of
`rewrite_repack_streaming` has parameters
`(src_bucket, src_key, dst_bucket, dst_key, batch_size)` only.  Python
raises `TypeError` at such a call before the callee body runs.  We model
Python keyword-argument binding explicitly (`kwargs_accepted`) over the
two literal name lists taken from the source, so that the embedded
worker faithfully reproduces this behaviour.
-/

namespace RepackS3

/-- Python strings (object keys, bucket names, prefixes), compared
byte-for-byte, embedded as lists of characters. -/
abbrev Str := List Char

/-- Source `_ensure_no_leading_slash` (repack.py 15-18):
`path[1:]` when the string starts with a slash, else unchanged. -/
def ensure_no_leading_slash (path : Str) : Str :=
  if ['/'].isPrefixOf path then path.drop 1 else path

/-- Source `_normalize_prefix` (repack.py 21-26), here `normalize_pre`:
strip a leading slash, then append a trailing slash when the result is
non-empty and does not already end with one. -/
def normalize_pre (p0 : Str) : Str :=
  let p := ensure_no_leading_slash p0
  if !p.isEmpty && !(['/'].isSuffixOf p) then p ++ ['/'] else p

/-- Source `_rel_key` (repack.py 29-34): the suffix of `full_key` after
`pre` when `pre` is non-empty and `full_key` starts with it; otherwise
the whole key unchanged (defensive fallback). -/
def rel_key (full_key pre : Str) : Str :=
  if pre.isEmpty then full_key
  else if pre.isPrefixOf full_key then full_key.drop pre.length
  else full_key

/-- Destination key computed by `_worker` (repack.py 171-172):
`dst_key = f"{dst_prefix}{rel}"` with `rel = _rel_key(src_key, src_prefix)`. -/
def dst_key_of (dstPre srcPre src_key : Str) : Str :=
  dstPre ++ rel_key src_key srcPre

/-- Row-batch iteration of `pf.iter_batches(batch_size=batch_size)`
(repack.py 87), fuelled so the recursion is structural: each step yields
the next `batch_size` rows.  `fuel` bounds the number of batches; the
wrapper `iter_batches` supplies `rows.length`, sufficient whenever
`batch_size ≥ 1`. -/
def iterBatchesGo {ρ : Type} (fuel batch_size : Nat) (rows : List ρ) : List (List ρ) :=
  match fuel, rows with
  | _, [] => []
  | 0, _ :: _ => []
  | fuel' + 1, r :: rs =>
      (r :: rs).take batch_size :: iterBatchesGo fuel' batch_size ((r :: rs).drop batch_size)

/-- Batches of `batch_size` rows read from `rows` in order, the last one
possibly shorter (repack.py 87). -/
def iter_batches {ρ : Type} (batch_size : Nat) (rows : List ρ) : List (List ρ) :=
  iterBatchesGo rows.length batch_size rows

/-- Decoded content of a Parquet file: its Arrow schema (opaque, type
`σ`) and its ordered rows (type `ρ`). -/
structure ParquetData (σ ρ : Type) where
  schema : σ
  rows : List ρ
deriving DecidableEq

/-- Local repack loop of `rewrite_repack_streaming` (repack.py 83-90):
open the downloaded source, take its schema (`pf.schema_arrow`), open a
writer on the destination staging file with that same schema, and write
every batch of `pf.iter_batches(batch_size=batch_size)` in order.  The
destination therefore decodes to the source schema and the
concatenation of the batches. -/
def rewrite_repack_streaming {σ ρ : Type} (batch_size : Nat)
    (src : ParquetData σ ρ) : ParquetData σ ρ :=
  { schema := src.schema
    rows := (iter_batches batch_size src.rows).flatten }

/-- Concatenating the fuelled batches recovers the row list, provided
`batch_size ≥ 1` and the fuel covers the length. -/
theorem iterBatchesGo_flatten {ρ : Type} (batch_size : Nat) (hb : 1 ≤ batch_size) :
    ∀ (fuel : Nat) (rows : List ρ), rows.length ≤ fuel →
      (iterBatchesGo fuel batch_size rows).flatten = rows := by
  intro fuel
  induction fuel with
  | zero =>
      intro rows h
      cases rows with
      | nil => simp [iterBatchesGo]
      | cons r rs => simp at h
  | succ n ih =>
      intro rows h
      cases rows with
      | nil => simp [iterBatchesGo]
      | cons r rs =>
          have hlen : ((r :: rs).drop batch_size).length ≤ n := by
            simp only [List.length_drop, List.length_cons] at *
            omega
          simp only [iterBatchesGo, List.flatten]
          rw [ih _ hlen, List.take_append_drop]

/-- Concatenating the batches recovers the row list when `batch_size ≥ 1`. -/
theorem iter_batches_flatten {ρ : Type} (batch_size : Nat) (hb : 1 ≤ batch_size)
    (rows : List ρ) : (iter_batches batch_size rows).flatten = rows :=
  iterBatchesGo_flatten batch_size hb rows.length rows (Nat.le_refl _)

/-- The `TransferOutcome` a worker reports for one task: skipped by the
existence gate, succeeded, or failed with a cause (the text of the
exception logged at repack.py 222). -/
inductive Outcome
  | skipped
  | succeeded
  | failed (cause : String)
deriving DecidableEq

/-- Observable S3 store interactions of one task, used to state that a
code path performs no store access of a given kind. -/
inductive Ev
  | head_object (bucket key : Str)
  | call_rewrite (src_bucket src_key dst_bucket dst_key : Str)
  | copy_metadata (dst_bucket dst_key : Str)
deriving DecidableEq

/-- Oracles for the boto3 network calls the pipeline performs.
`head_object` is the metadata probe of `_should_skip_existing`
(repack.py 113): `Except.ok` when the call returns, `Except.error` when
it raises (not-found or transient failure alike).  `rewrite_run` gives
the result and store events of the body of `rewrite_repack_streaming`,
were it to run with positionally bound arguments.  `list_parquet_keys`
is the listing `list_parquet_keys(bucket, prefix)` (repack.py 37-52),
already filtered to the configured extensions. -/
structure S3Env where
  head_object : Str → Str → Except String Unit
  rewrite_run : Str → Str → Str → Str → Nat → Except String Unit × List Ev
  list_parquet_keys : Str → Str → List Str

/-- Source `_should_skip_existing` (repack.py 104-116): `False` when
`skip_existing` is off; otherwise `True` exactly when the `head_object`
probe completes without raising, and `False` on any exception. -/
def should_skip_existing (env : S3Env) (bucket key : Str)
    (skip_existing : Bool) : Bool :=
  if !skip_existing then false
  else
    match env.head_object bucket key with
    | Except.ok _ => true
    | Except.error _ => false

/-- Parameter names of `def rewrite_repack_streaming` (repack.py 55-61). -/
def rewriteStreamingParams : List String :=
  ["src_bucket", "src_key", "dst_bucket", "dst_key", "batch_size"]

/-- Keyword-argument names of the call to `rewrite_repack_streaming`
inside `_worker` (repack.py 189-196). -/
def workerCallKeywords : List String :=
  ["s3fs", "src_bucket", "src_key", "dst_bucket", "dst_key", "batch_size"]

/-- Python keyword binding for a function without a `**kwargs`
parameter: the call binds (and the body runs) exactly when every keyword
names a declared parameter; otherwise the call raises `TypeError`. -/
def kwargs_accepted (params kwargs : List String) : Bool :=
  kwargs.all (fun k => params.contains k)

/-- Source `_worker` (repack.py 169-222).  Computes `dst_key`, consults
the existence gate (probing the store only when `skip_existing` is on),
and either reports the skip, or performs the call
`rewrite_repack_streaming(s3fs=s3fs, ...)`: if the keyword arguments
bound, the body would run (via `env.rewrite_run`) followed by the
best-effort `_copy_metadata_if_available`; since the keyword `s3fs` is
not a parameter of the callee, the call raises `TypeError`, caught by
the `except` clause, and the task is recorded failed.  The returned
event list records the store interactions of the task. -/
def worker (env : S3Env) (src_bucket srcPre dst_bucket dstPre : Str)
    (batch_size : Nat) (skip_existing : Bool) (src_key : Str) :
    Outcome × List Ev :=
  let dst_key := dst_key_of dstPre srcPre src_key
  let probeEvs : List Ev :=
    if skip_existing then [Ev.head_object dst_bucket dst_key] else []
  if should_skip_existing env dst_bucket dst_key skip_existing then
    (Outcome.skipped, probeEvs)
  else if kwargs_accepted rewriteStreamingParams workerCallKeywords then
    match env.rewrite_run src_bucket src_key dst_bucket dst_key batch_size with
    | (Except.ok _, evs) =>
        (Outcome.succeeded,
          probeEvs ++ Ev.call_rewrite src_bucket src_key dst_bucket dst_key :: evs
            ++ [Ev.copy_metadata dst_bucket dst_key])
    | (Except.error e, evs) =>
        (Outcome.failed e,
          probeEvs ++ Ev.call_rewrite src_bucket src_key dst_bucket dst_key :: evs)
  else
    (Outcome.failed "TypeError: unexpected keyword argument s3fs", probeEvs)

/-- Whether an outcome increments `ok_counter` (skips and successes) as
opposed to `err_counter` (failures). -/
def outcome_ok : Outcome → Bool
  | Outcome.failed _ => false
  | _ => true

/-- One counter update under `ok_lock`: bump `ok_counter` or
`err_counter` according to the outcome (repack.py 177-178, 201-202,
212-213). -/
def tally_step (acc : Nat × Nat) (o : Outcome) : Nat × Nat :=
  if outcome_ok o then (acc.1 + 1, acc.2) else (acc.1, acc.2 + 1)

/-- Final `(ok_counter, err_counter)` after every task has reported its
outcome; the lock serialises the increments, so the result is this fold. -/
def tally (outs : List Outcome) : Nat × Nat :=
  outs.foldl tally_step (0, 0)

/-- Effective processing-unit count of `_cpu_count() or 4`
(repack.py 228): `os.cpu_count()` may return `None` (and `or` also maps
a falsy `0`) in which case 4 is used. -/
def cpu_count_or_4 : Option Nat → Nat
  | none => 4
  | some 0 => 4
  | some (n + 1) => n + 1

/-- Worker-count selection of `repack_prefix` (repack.py 224-229): a
caller-supplied `None` or non-positive value is replaced by
`min(32, 4 * cpus)`; a positive value is used unchanged. -/
def effective_max_workers (max_workers : Option Int) (cpu_count : Option Nat) : Int :=
  match max_workers with
  | none => min 32 (4 * (cpu_count_or_4 cpu_count : Int))
  | some w =>
      if w ≤ 0 then min 32 (4 * (cpu_count_or_4 cpu_count : Int)) else w

/-- Source `repack_prefix` (repack.py 143-249): normalize both prefixes,
list the matching keys, return `(0, 0)` immediately when there are none;
otherwise choose the worker count, run `_worker` once per key, and
return the final counters.  The result pairs the `(ok, err)` counts with
the concatenated store-events of all tasks. -/
def repackRun (env : S3Env) (src_bucket srcPre0 dst_bucket dstPre0 : Str)
    (max_workers : Option Int) (cpu_count : Option Nat)
    (batch_size : Nat) (skip_existing : Bool) : (Nat × Nat) × List Ev :=
  let srcPre := normalize_pre srcPre0
  let dstPre := normalize_pre dstPre0
  let keys := env.list_parquet_keys src_bucket srcPre
  if keys.isEmpty then ((0, 0), [])
  else
    let _mw := effective_max_workers max_workers cpu_count
    let results :=
      keys.map (worker env src_bucket srcPre dst_bucket dstPre batch_size skip_existing)
    (tally (results.map (fun r => r.1)), (results.map (fun r => r.2)).flatten)

/-- Exit-code logic of `__main__.main` (lines 56-66): run the pipeline
with `skip_existing = not args.no_skip_existing` and return
`0 if err == 0 else 2`. -/
def main_exit (env : S3Env) (src_bucket srcPre dst_bucket dstPre : Str)
    (workers : Int) (cpu_count : Option Nat) (batch_size : Nat)
    (no_skip_existing : Bool) : Nat :=
  let r := (repackRun env src_bucket srcPre dst_bucket dstPre (some workers)
      cpu_count batch_size (!no_skip_existing)).1
  if r.2 = 0 then 0 else 2

/-- Test store whose listing is empty and whose probes all raise
(`404`); the rewrite body, were it reached, would succeed. -/
def envNothing : S3Env where
  head_object := fun _ _ => Except.error "404"
  rewrite_run := fun _ _ _ _ _ => (Except.ok (), [])
  list_parquet_keys := fun _ _ => []

/-- Test store whose probes all succeed (every destination exists) and
that lists one key. -/
def envAllExist : S3Env where
  head_object := fun _ _ => Except.ok ()
  rewrite_run := fun _ _ _ _ _ => (Except.ok (), [])
  list_parquet_keys := fun _ _ => [['a', '.', 'p', 'a', 'r', 'q']]

/-- Test store listing one key whose probes all raise, so nothing is
skipped; the rewrite body, were it reached, would succeed. -/
def envOneKey : S3Env where
  head_object := fun _ _ => Except.error "404"
  rewrite_run := fun _ _ _ _ _ => (Except.ok (), [])
  list_parquet_keys := fun _ _ => [['k', '.', 'p', 'a', 'r', 'q']]

/-- Folding counter updates over a list of outcomes adds its length to
the sum of the two counters. -/
theorem tally_foldl_sum (outs : List Outcome) :
    ∀ acc : Nat × Nat,
      (outs.foldl tally_step acc).1 + (outs.foldl tally_step acc).2
        = acc.1 + acc.2 + outs.length := by
  induction outs with
  | nil => intro acc; simp
  | cons o os ih =>
      intro acc
      simp only [List.foldl_cons, List.length_cons]
      rw [ih (tally_step acc o)]
      cases h : outcome_ok o <;> simp [tally_step, h] <;> omega

/-- The two final counters sum to the number of reported outcomes. -/
theorem tally_sum (outs : List Outcome) :
    (tally outs).1 + (tally outs).2 = outs.length := by
  simpa using tally_foldl_sum outs (0, 0)

/-- Re-attaching a true prefix to the relative key recovers the key. -/
theorem rel_key_recover (pre k : Str) (h : pre.isPrefixOf k = true) :
    pre ++ rel_key k pre = k := by
  unfold rel_key
  by_cases hp : pre.isEmpty = true
  · have hnil : pre = [] := List.isEmpty_iff.mp hp
    simp [hp, hnil]
  · obtain ⟨t, ht⟩ := List.isPrefixOf_iff_prefix.mp h
    subst ht
    simp [hp, h, List.drop_left]

/-- Claim C1 evidence: whenever the existence gate does not skip a task
(`_should_skip_existing` returns `False`), the worker's call
`rewrite_repack_streaming(s3fs=s3fs, ...)` raises `TypeError` (the
keyword `s3fs` is not a parameter of `rewrite_repack_streaming`), so the
task is recorded as failed with that cause — for every store and every
task; the rewrite path can never record a success. -/
theorem c1_rewrite_path_records_failed (env : S3Env)
    (src_bucket srcPre dst_bucket dstPre src_key : Str)
    (batch_size : Nat) (skip_existing : Bool)
    (h : should_skip_existing env dst_bucket (dst_key_of dstPre srcPre src_key)
        skip_existing = false) :
    (worker env src_bucket srcPre dst_bucket dstPre batch_size skip_existing src_key).1
      = Outcome.failed "TypeError: unexpected keyword argument s3fs" := by
  have hk : kwargs_accepted rewriteStreamingParams workerCallKeywords = false := by decide
  simp [worker, h, hk]

/-- Claim C1 evidence at a concrete non-skipped task (skip_existing off,
key `s/k`): the recorded outcome is the `TypeError` failure. -/
theorem c1_rewrite_path_records_failed_witness :
    should_skip_existing envNothing ['d']
        (dst_key_of ['t', '/'] ['s', '/'] ['s', '/', 'k']) false = false
      ∧ (worker envNothing ['b'] ['s', '/'] ['d'] ['t', '/'] 65536 false
            ['s', '/', 'k']).1
          = Outcome.failed "TypeError: unexpected keyword argument s3fs" :=
  ⟨rfl, c1_rewrite_path_records_failed envNothing ['b'] ['s', '/'] ['d'] ['t', '/']
    ['s', '/', 'k'] 65536 false rfl⟩

/-- Claim C2: for every listing, the two counters returned by
`repack_prefix` sum to the number of dispatched tasks (one per listed
key), regardless of skipping, success or failure. -/
theorem c2_counts_sum_to_dispatched (env : S3Env)
    (src_bucket srcPre0 dst_bucket dstPre0 : Str)
    (max_workers : Option Int) (cpu_count : Option Nat)
    (batch_size : Nat) (skip_existing : Bool) :
    ((repackRun env src_bucket srcPre0 dst_bucket dstPre0 max_workers cpu_count
          batch_size skip_existing).1).1
      + ((repackRun env src_bucket srcPre0 dst_bucket dstPre0 max_workers cpu_count
          batch_size skip_existing).1).2
      = (env.list_parquet_keys src_bucket (normalize_pre srcPre0)).length := by
  unfold repackRun
  by_cases hk : (env.list_parquet_keys src_bucket (normalize_pre srcPre0)).isEmpty = true
  · simp [hk, List.isEmpty_iff.mp hk]
  · simp only [hk, Bool.false_eq_true, if_false, if_neg]
    rw [tally_sum]
    simp

/-- Claim C3: for every source object and every `batch_size ≥ 1`, the
local repack writes exactly the row-batches read from the source, in
order, under the source schema, so the destination decodes to the same
rows and schema as the source; the batch size does not affect the
decoded output. -/
theorem c3_rewrite_roundtrip {σ ρ : Type} (batch_size : Nat)
    (src : ParquetData σ ρ) (hb : 1 ≤ batch_size) :
    rewrite_repack_streaming batch_size src = src := by
  cases src with
  | mk s rows =>
      simp [rewrite_repack_streaming, iter_batches_flatten batch_size hb rows]

/-- Claim C3 at a concrete file of three rows and batch size 2. -/
theorem c3_rewrite_roundtrip_witness :
    (1 : Nat) ≤ 2
      ∧ rewrite_repack_streaming 2 (ParquetData.mk 0 [1, 2, 3] : ParquetData Nat Nat)
          = ParquetData.mk 0 [1, 2, 3] :=
  ⟨by decide, c3_rewrite_roundtrip 2 (ParquetData.mk 0 [1, 2, 3]) (by decide)⟩

/-- Claim C4: the existence gate returns `True` exactly when
`skip_existing` is on and the `head_object` probe completes without
raising; every probe failure (not-found or transient alike) yields
`False`. -/
theorem c4_existence_gate_iff (env : S3Env) (bucket key : Str)
    (skip_existing : Bool) :
    should_skip_existing env bucket key skip_existing = true
      ↔ (skip_existing = true ∧ env.head_object bucket key = Except.ok ()) := by
  unfold should_skip_existing
  cases skip_existing with
  | false => simp
  | true =>
      cases h : env.head_object bucket key with
      | ok u => cases u; simp [h]
      | error e => simp [h]

/-- Claim C5: when `skip_existing` is on and the destination probe
succeeds, the worker records the task as skipped — an outcome counted
into the `ok` counter — after only the existence probe, with no rewrite
call and no other store interaction. -/
theorem c5_skip_counts_as_success (env : S3Env)
    (src_bucket srcPre dst_bucket dstPre src_key : Str) (batch_size : Nat)
    (h : env.head_object dst_bucket (dst_key_of dstPre srcPre src_key)
        = Except.ok ()) :
    worker env src_bucket srcPre dst_bucket dstPre batch_size true src_key
        = (Outcome.skipped,
            [Ev.head_object dst_bucket (dst_key_of dstPre srcPre src_key)])
      ∧ outcome_ok Outcome.skipped = true := by
  refine ⟨?_, rfl⟩
  simp [worker, should_skip_existing, h]

/-- Claim C5 at a concrete task whose destination exists. -/
theorem c5_skip_counts_as_success_witness :
    envAllExist.head_object ['d'] (dst_key_of ['t', '/'] ['s', '/'] ['s', '/', 'k'])
        = Except.ok ()
      ∧ (worker envAllExist ['b'] ['s', '/'] ['d'] ['t', '/'] 7 true ['s', '/', 'k']
            = (Outcome.skipped,
                [Ev.head_object ['d'] (dst_key_of ['t', '/'] ['s', '/'] ['s', '/', 'k'])])
          ∧ outcome_ok Outcome.skipped = true) :=
  ⟨rfl, c5_skip_counts_as_success envAllExist ['b'] ['s', '/'] ['d'] ['t', '/']
    ['s', '/', 'k'] 7 rfl⟩

/-- Claim C6: for a fixed source/destination prefix pair, the key
mapping is injective on source keys that start with the source prefix:
distinct such keys yield distinct destination keys. -/
theorem c6_dst_key_injective_on_prefixed (srcPre dstPre k1 k2 : Str)
    (h1 : srcPre.isPrefixOf k1 = true) (h2 : srcPre.isPrefixOf k2 = true)
    (heq : dst_key_of dstPre srcPre k1 = dst_key_of dstPre srcPre k2) :
    k1 = k2 := by
  unfold dst_key_of at heq
  have hrel : rel_key k1 srcPre = rel_key k2 srcPre := List.append_cancel_left heq
  rw [← rel_key_recover srcPre k1 h1, ← rel_key_recover srcPre k2 h2, hrel]

/-- Claim C6 at a concrete key under the prefix. -/
theorem c6_dst_key_injective_on_prefixed_witness :
    (['s', '/'] : Str).isPrefixOf ['s', '/', 'a'] = true
      ∧ (['s', '/', 'a'] : Str) = ['s', '/', 'a'] :=
  ⟨rfl, c6_dst_key_injective_on_prefixed ['s', '/'] ['t', '/'] ['s', '/', 'a']
    ['s', '/', 'a'] rfl rfl rfl⟩

/-- Claim C7: a non-positive or absent caller-supplied worker count is
replaced by `min(32, 4 * cpus)`, where the processing-unit count
defaults to 4 when it cannot be determined; a positive value is used
unchanged. -/
theorem c7_effective_worker_count (max_workers : Option Int) (cpu_count : Option Nat) :
    ((max_workers = none ∨ ∃ w, max_workers = some w ∧ w ≤ 0) →
        effective_max_workers max_workers cpu_count
          = min 32 (4 * (cpu_count_or_4 cpu_count : Int)))
      ∧ (∀ w : Int, 0 < w → effective_max_workers (some w) cpu_count = w)
      ∧ cpu_count_or_4 none = 4 := by
  refine ⟨?_, ?_, rfl⟩
  · rintro (rfl | ⟨w, rfl, hw⟩)
    · rfl
    · simp [effective_max_workers, hw]
  · intro w hw
    have hnle : ¬ w ≤ 0 := by omega
    simp [effective_max_workers, hnle]

/-- Claim C7 at worker count 0 with 8 processing units, and at a
positive worker count 5. -/
theorem c7_effective_worker_count_witness :
    effective_max_workers (some 0) (some 8)
        = min 32 (4 * (cpu_count_or_4 (some 8) : Int))
      ∧ effective_max_workers (some 5) (some 8) = 5 :=
  ⟨(c7_effective_worker_count (some 0) (some 8)).1 (Or.inr ⟨0, rfl, le_refl 0⟩),
   ((c7_effective_worker_count (some 5) (some 8)).2.1) 5 (by decide)⟩

/-- Claim C8: when the listing is empty, `repack_prefix` returns
`(0, 0)` immediately, dispatching no task and touching the store with no
probe, rewrite or metadata copy (empty event trace). -/
theorem c8_empty_listing_noop (env : S3Env)
    (src_bucket srcPre0 dst_bucket dstPre0 : Str)
    (max_workers : Option Int) (cpu_count : Option Nat)
    (batch_size : Nat) (skip_existing : Bool)
    (h : env.list_parquet_keys src_bucket (normalize_pre srcPre0) = []) :
    repackRun env src_bucket srcPre0 dst_bucket dstPre0 max_workers cpu_count
        batch_size skip_existing = ((0, 0), []) := by
  simp [repackRun, h]

/-- Claim C8 at a store with an empty listing. -/
theorem c8_empty_listing_noop_witness :
    envNothing.list_parquet_keys ['b'] (normalize_pre ['s']) = []
      ∧ repackRun envNothing ['b'] ['s'] ['d'] ['t'] (some 0) (some 8) 65536 true
          = ((0, 0), []) :=
  ⟨rfl, c8_empty_listing_noop envNothing ['b'] ['s'] ['d'] ['t'] (some 0) (some 8)
    65536 true rfl⟩

/-- Claim C9: the CLI exit code is 0 exactly when the pipeline's failed
count is zero, and 2 whenever at least one task failed. -/
theorem c9_exit_code (env : S3Env) (src_bucket srcPre dst_bucket dstPre : Str)
    (workers : Int) (cpu_count : Option Nat) (batch_size : Nat)
    (no_skip_existing : Bool) :
    (main_exit env src_bucket srcPre dst_bucket dstPre workers cpu_count
          batch_size no_skip_existing = 0
        ↔ ((repackRun env src_bucket srcPre dst_bucket dstPre (some workers)
              cpu_count batch_size (!no_skip_existing)).1).2 = 0)
      ∧ (1 ≤ ((repackRun env src_bucket srcPre dst_bucket dstPre (some workers)
              cpu_count batch_size (!no_skip_existing)).1).2 →
          main_exit env src_bucket srcPre dst_bucket dstPre workers cpu_count
            batch_size no_skip_existing = 2) := by
  unfold main_exit
  by_cases h : ((repackRun env src_bucket srcPre dst_bucket dstPre (some workers)
      cpu_count batch_size (!no_skip_existing)).1).2 = 0
  · simp [h]
  · simp [h]

/-- Claim C9 at an empty run (exit 0) and at a run with one failing task
(exit 2). -/
theorem c9_exit_code_witness :
    main_exit envNothing ['b'] ['s'] ['d'] ['t'] 0 (some 8) 65536 false = 0
      ∧ main_exit envOneKey ['b'] ['s'] ['d'] ['t'] 0 (some 8) 65536 false = 2 :=
  ⟨(c9_exit_code envNothing ['b'] ['s'] ['d'] ['t'] 0 (some 8) 65536 false).1.mpr rfl,
   (c9_exit_code envOneKey ['b'] ['s'] ['d'] ['t'] 0 (some 8) 65536 false).2
     (by decide)⟩

/-- Claim C10: over all source keys the key mapping is not injective:
with source prefix `s/` the key `s/a` (under the prefix) and the key `a`
(pass-through fallback) map to the same destination key. -/
theorem c10_dst_key_not_injective_globally :
    dst_key_of ['d', '/'] ['s', '/'] ['s', '/', 'a']
        = dst_key_of ['d', '/'] ['s', '/'] ['a']
      ∧ (['s', '/', 'a'] : Str) ≠ ['a']
      ∧ (['s', '/'] : Str).isPrefixOf ['s', '/', 'a'] = true
      ∧ (['s', '/'] : Str).isPrefixOf ['a'] = false := by
  decide

end RepackS3
